import Mathlib

set_option maxRecDepth 10000

/-!
Shallow embedding of `src/app.py` (reddit-insight-tool): the retrieval,
corpus-assembly, extraction and tabular-presentation pipeline, with the
external services (Tavily search, the generative model, `json.loads`)
taken as oracle parameters.  UI rendering is modelled only where a claim
depends on it (name resolution for the chart section, session state for
the display section).
-/

namespace RedditInsight

/-- One result item of a Tavily search response (`response['results'][i]`):
fields `url`, `title`, and the optional `raw_content` / `content` strings.
`none` models a missing key / Python `None`. -/
structure SearchItem where
  url : String
  title : String
  raw_content : Option String
  content : Option String
deriving Repr, DecidableEq

/-- A retained thread, as stored in `all_threads[url]` (app.py lines 54-58). -/
structure Thread where
  title : String
  url : String
  content : String
deriving Repr, DecidableEq

/-- Python `a or b` on two optional strings: `a` is falsy when it is `None`
or the empty string, in which case the expression evaluates to `b`
(app.py line 52: `item.get('raw_content') or item.get('content')`). -/
def pyOrStr : Option String → Option String → Option String
  | some s, b => if s = "" then b else some s
  | none, b => b

/-- The per-item keep test of app.py lines 50-58: take
`raw_content or content`; keep the item only when that value is truthy and
its length is strictly greater than 150 (an empty string has length 0, so
the truthiness test is subsumed by the length test for `some` values). -/
def acceptItem (it : SearchItem) : Option Thread :=
  match pyOrStr it.raw_content it.content with
  | some c => if 150 < c.length then some ⟨it.title, it.url, c⟩ else none
  | none => none

/-- Python dict assignment `d[k] = v`: overwrite in place when the key is
present (keeping its position), append otherwise. -/
def dictInsert (d : List (String × Thread)) (k : String) (v : Thread) :
    List (String × Thread) :=
  if (d.map Prod.fst).contains k then
    d.map (fun p => if p.1 = k then (k, v) else p)
  else d ++ [(k, v)]

/-- The accumulation loop of app.py lines 44-58: for each query response in
order, for each result item in order, insert the accepted thread into the
URL-keyed dict. -/
def gatherDict (responses : List (List SearchItem)) : List (String × Thread) :=
  responses.foldl
    (fun d items =>
      items.foldl
        (fun d it =>
          match acceptItem it with
          | some t => dictInsert d it.url t
          | none => d)
        d)
    []

/-- `unique_threads = list(all_threads.values())` (app.py line 63). -/
def gatherThreads (responses : List (List SearchItem)) : List Thread :=
  (gatherDict responses).map Prod.snd

/-- The three query variants of app.py lines 34-38. -/
def queries (topic : String) : List String :=
  ["site:reddit.com " ++ topic ++ " price cost",
   "site:reddit.com " ++ topic ++ " quote received",
   "site:reddit.com " ++ topic ++ " review expensive cheap"]

/-- Python slice `s[:n]` on a string, acting on its sequence of code points. -/
def pySlice (s : String) (n : Nat) : String :=
  ⟨s.data.take n⟩

/-- The block separator `'='*40` (app.py line 74). -/
def separator : String :=
  String.mk (List.replicate 40 '=')

/-- One thread's block of the combined prompt text (app.py line 74):
source tag, title tag, content truncated to 8000 characters, separator. -/
def threadBlock (t : Thread) : String :=
  "SOURCE: " ++ t.url ++ "\nTITLE: " ++ t.title ++ "\nCONTENT:\n" ++
    pySlice t.content 8000 ++ "\n" ++ separator ++ "\n"

/-- `combined_text` accumulation of app.py lines 72-74. -/
def combinedText (ts : List Thread) : String :=
  ts.foldl (fun acc t => acc ++ threadBlock t) ""

/-- The backquote character, code point 96. -/
def backquote : Char := Char.ofNat 96

/-- The characters of the regex alternative matching a json code fence. -/
def fenceJson : List Char := [backquote, backquote, backquote, 'j', 's', 'o', 'n']

/-- The characters of the regex alternative matching a bare code fence. -/
def fenceBare : List Char := [backquote, backquote, backquote]

/-- Left-to-right scan of Python re.sub removing every occurrence of a json
code fence or a bare code fence, the longer alternative tried first at each
position (app.py line 114). -/
def removeFences : List Char → List Char
  | [] => []
  | c :: rest =>
    if fenceJson.isPrefixOf (c :: rest) then removeFences ((c :: rest).drop 7)
    else if fenceBare.isPrefixOf (c :: rest) then removeFences ((c :: rest).drop 3)
    else c :: removeFences rest
termination_by l => l.length
decreasing_by
  · simp [List.length_drop]; omega
  · simp [List.length_drop]; omega
  · simp

/-- The default whitespace set of Python str.strip. -/
def isPySpace (c : Char) : Bool :=
  c = ' ' || c = '\t' || c = '\n' || c = '\r' || c = Char.ofNat 11 || c = Char.ofNat 12

/-- Python str.strip: drop leading and trailing whitespace. -/
def pyStrip (l : List Char) : List Char :=
  ((l.dropWhile isPySpace).reverse.dropWhile isPySpace).reverse

/-- The cleaning step of app.py line 114: remove code fences, then strip
surrounding whitespace. -/
def cleanModelOutput (s : String) : String :=
  ⟨pyStrip (removeFences s.data)⟩

/-- A JSON scalar as it can appear in the price_monthly field of a decoded
dataset entry: a number, a string, or null. -/
inductive PyVal where
  | num (q : ℚ)
  | str (s : String)
  | null
deriving Repr, DecidableEq

/-- One decoded dataset entry.  The schema also names product_name, location,
user_profile, quote_snippet, source_url, source_title and sentiment, but the
statistics of the results display read only brand and price_monthly, so only
those two fields are carried. -/
structure Entry where
  brand : String
  price_monthly : PyVal
deriving Repr, DecidableEq

/-- The decoded model output: the optional dataset list and the auxiliary
string fields read via data.get in the insights tab.  A `none` dataset covers
both a JSON object without the dataset key and a falsy (empty) object. -/
structure ExtractionData where
  dataset : Option (List Entry)
  market_summary : Option String
  price_volatility : Option String
  recommendation : Option String
deriving Repr, DecidableEq

/-- Numeric value of a digit list, most significant first. -/
def digitsVal (l : List Char) : Nat :=
  l.foldl (fun a c => a * 10 + (c.toNat - 48)) 0

/-- Permissive numeric parse of a string, modelling pd.to_numeric on one
string cell: optional surrounding whitespace, optional sign, decimal digits
with an optional fractional part.  Anything else fails to `none` (which
errors=coerce turns into NaN). -/
def parseNum (s : String) : Option ℚ :=
  let l := pyStrip s.data
  let sl : ℚ × List Char :=
    match l with
    | '-' :: r => (-1, r)
    | '+' :: r => (1, r)
    | _ => (1, l)
  let ip := sl.2.takeWhile Char.isDigit
  let rest := sl.2.dropWhile Char.isDigit
  match rest with
  | [] => if ip.isEmpty then none else some (sl.1 * (digitsVal ip : ℚ))
  | '.' :: fr =>
    if fr.all Char.isDigit && !(ip.isEmpty && fr.isEmpty) then
      some (sl.1 * ((digitsVal ip : ℚ) + (digitsVal fr : ℚ) / ((10 : ℚ) ^ fr.length)))
    else none
  | _ => none

/-- pd.to_numeric with errors=coerce on one cell of the price_monthly
column (app.py line 156): numbers pass through, numeric strings are parsed,
everything else becomes NaN, modelled as `none`. -/
def toNumeric : PyVal → Option ℚ
  | .num q => some q
  | .str s => parseNum s
  | .null => none

/-- The f-string prompt of app.py lines 77-111 with topic and combined_text
interpolated (the 8-space indentation of the Python literal is elided; the
doubled braces of the f-string denote literal braces, written here as
escapes). -/
def promptText (topic corpus : String) : String :=
  "\nYou are an Expert Data Extraction Agent. I have scraped Reddit discussions about \"" ++ topic ++ "\".\n\nYour Goal: specific, tabular data extraction. Do NOT summarize yet.\n\nINSTRUCTIONS:\n1. Scan the text for ANY mention of a price, quote, or cost.\n2. For every price mention, create a data row.\n3. If a user mentions a range (e.g. \"200-300\"), use the average (250).\n4. CONVERT all prices to MONTHLY (if annual, divide by 12. If 6-month, divide by 6).\n5. LINKING: You MUST map the data back to the \x27SOURCE_URL\x27 provided in the text.\n\nREQUIRED JSON STRUCTURE:\n\x7b\n  \"dataset\": [\n    \x7b\n      \"product_name\": \"Specific Model/Item\",\n      \"brand\": \"Company Name\",\n      \"price_monthly\": 123,\n      \"location\": \"City/State\",\n      \"user_profile\": \"Details (Age, History)\",\n      \"quote_snippet\": \"Exact text quote\",\n      \"source_url\": \"The exact URL this quote came from (copied from input)\",\n      \"source_title\": \"The Title of the Reddit thread\",\n      \"sentiment\": \"Positive/Negative/Neutral\"\n    \x7d\n  ],\n  \"market_summary\": \"Summary...\",\n  \"price_volatility\": \"High/Medium/Low\",\n  \"recommendation\": \"Actionable tip\"\n\x7d\n\nRAW TEXT DATA:\n" ++ corpus ++ "\n"

/-- The log line of app.py line 45 (quote marks written as escapes). -/
def queryLog (i : Nat) (q : String) : String :=
  "🕵️ Running Query " ++ toString (i + 1) ++ ": \x27" ++ q ++ "\x27..."

/-- Outcome of one call of run_deep_analysis: the returned data and log, the
number of search-backend invocations performed, and whether the generative
model was invoked. -/
structure RunResult where
  result : Option ExtractionData
  log : List String
  searchCalls : Nat
  modelCalled : Bool
deriving Repr

/-- Shallow embedding of run_deep_analysis (app.py lines 23-120).  The three
external services are oracle parameters: `search` maps a query to the result
items of tavily.search, `generate` maps a prompt to the model response text,
and `parse` is json.loads returning `none` when decoding raises (the caught
exception becomes the error log line; the Python message text of the
JSONDecodeError is abstracted). -/
def run_deep_analysis (topic : String) (search : String → List SearchItem)
    (generate : String → String) (parse : String → Option ExtractionData) :
    RunResult :=
  let qs := queries topic
  let qlog := qs.enum.map (fun p => queryLog p.1 p.2)
  let threads := gatherThreads (qs.map search)
  if threads.length < 2 then
    { result := none, log := qlog ++ ["❌ Not enough data found."],
      searchCalls := qs.length, modelCalled := false }
  else
    let aggLog := "✅ Aggregated " ++ toString threads.length ++ " unique threads. Analyzing..."
    let raw := generate (promptText topic (combinedText threads))
    match parse (cleanModelOutput raw) with
    | some d =>
      { result := some d, log := qlog ++ [aggLog, "✅ Deep Analysis Complete!"],
        searchCalls := qs.length, modelCalled := true }
    | none =>
      { result := none, log := qlog ++ [aggLog, "❌ Error: invalid model output"],
        searchCalls := qs.length, modelCalled := true }

/-- The cleaning of app.py lines 156-157: coerce price_monthly to numeric
and drop the rows whose price became NaN.  The surviving rows keep their
original order, each paired with its parsed price. -/
def validRows (ds : List Entry) : List (Entry × ℚ) :=
  ds.filterMap (fun e => (toNumeric e.price_monthly).map (fun q => (e, q)))

/-- The price_monthly column of the cleaned frame. -/
def priceColumn (ds : List Entry) : List ℚ :=
  (validRows ds).map Prod.snd

/-- Insertion into an ascending list of rationals. -/
def insertAsc (q : ℚ) : List ℚ → List ℚ
  | [] => [q]
  | x :: xs => if q ≤ x then q :: x :: xs else x :: insertAsc q xs

/-- Ascending insertion sort of a list of rationals. -/
def sortAsc (l : List ℚ) : List ℚ :=
  l.foldr insertAsc []

/-- pandas Series.median: sort the values; the middle value for odd length,
the mean of the two middle values for even length, NaN (none) when empty. -/
def medianOf (l : List ℚ) : Option ℚ :=
  let s := sortAsc l
  let n := s.length
  if n = 0 then none
  else if n % 2 = 1 then some (s.getD (n / 2) 0)
  else some ((s.getD (n / 2 - 1) 0 + s.getD (n / 2) 0) / 2)

/-- pandas Series.min over the values, none when empty. -/
def minOf : List ℚ → Option ℚ
  | [] => none
  | x :: xs => some (xs.foldl (fun a b => if b < a then b else a) x)

/-- pandas Series.max over the values, none when empty. -/
def maxOf : List ℚ → Option ℚ
  | [] => none
  | x :: xs => some (xs.foldl (fun a b => if a < b then b else a) x)

/-- Python int() on a rational: truncation toward zero (Int.tdiv is
truncating division). -/
def pyInt (q : ℚ) : ℤ :=
  Int.tdiv q.num q.den

/-- Arithmetic mean of a list of rationals (only used on nonempty groups). -/
def listMean (l : List ℚ) : ℚ :=
  l.sum / (l.length : ℚ)

/-- First-occurrence deduplication, the key order a Python dict would give. -/
def firstOccur (l : List String) : List String :=
  l.foldl (fun acc b => if acc.contains b then acc else acc ++ [b]) []

/-- Insertion into an ascending list of strings. -/
def insertAscStr (b : String) : List String → List String
  | [] => [b]
  | x :: xs => if b ≤ x then b :: x :: xs else x :: insertAscStr b xs

/-- Ascending insertion sort of strings (groupby sorts its keys). -/
def sortStr (l : List String) : List String :=
  l.foldr insertAscStr []

/-- Mean price of one brand group over the cleaned rows (the groupby of
app.py line 183 operates on the frame after to_numeric and dropna, so zero
and negative prices participate). -/
def brandMean (ds : List Entry) (b : String) : ℚ :=
  listMean (((validRows ds).filter (fun p => p.1.brand = b)).map Prod.snd)

/-- Insertion into a list of brand rows ascending by mean price. -/
def insertByMean (p : String × ℚ) : List (String × ℚ) → List (String × ℚ)
  | [] => [p]
  | x :: xs => if p.2 ≤ x.2 then p :: x :: xs else x :: insertByMean p xs

/-- Sort brand rows ascending by mean price (app.py line 184). -/
def sortByMean (l : List (String × ℚ)) : List (String × ℚ) :=
  l.foldr insertByMean []

/-- brand_stats of app.py lines 183-184: group the cleaned rows by brand
(keys in ascending order), take the mean price per group, then sort the
rows ascending by mean price. -/
def brandStats (ds : List Entry) : List (String × ℚ) :=
  sortByMean ((sortStr (firstOccur ((validRows ds).map (fun p => p.1.brand)))).map
    (fun b => (b, brandMean ds b)))

/-- The presented view of one dataset: the cleaned rows, the KPI statistics
of app.py lines 169-172 (both as exact rationals and as the displayed
truncated integers), and the brand table of lines 183-184. -/
structure PresentedTable where
  rows : List (Entry × ℚ)
  dataPoints : Nat
  medianPrice : Option ℚ
  lowestPrice : Option ℚ
  highestPrice : Option ℚ
  kpiMedian : Option ℤ
  kpiLowest : Option ℤ
  kpiHighest : Option ℤ
  brandTable : List (String × ℚ)
deriving Repr, DecidableEq

/-- The statistics portion of the results display (app.py lines 150-184). -/
def present (ds : List Entry) : PresentedTable :=
  let rows := validRows ds
  let ps := rows.map Prod.snd
  { rows := rows
    dataPoints := rows.length
    medianPrice := medianOf ps
    lowestPrice := minOf ps
    highestPrice := maxOf ps
    kpiMedian := (medianOf ps).map pyInt
    kpiLowest := (minOf ps).map pyInt
    kpiHighest := (maxOf ps).map pyInt
    brandTable := brandStats ds }

/-- Every name bound at module level of app.py: the eight import aliases of
lines 1-8 and every module-scope assignment, with-statement or loop target of
the script body.  The name px appears nowhere among them. -/
def moduleBoundNames : List String :=
  ["st", "genai", "TavilyClient", "json", "re", "os", "time", "pd",
   "gemini_key", "tavily_key", "run_deep_analysis", "topic_input", "submitted",
   "data", "logs", "l", "df", "tab1", "tab2", "tab3",
   "k1", "k2", "k3", "k4", "c1", "c2", "brand_stats", "fig_bar", "fig_hist",
   "csv", "cols_to_show", "unique_sources", "_", "row",
   "neg_reviews", "pos_reviews", "sc1", "sc2"]

/-- Python name resolution at module scope: a NameError when the name is not
bound. -/
def lookupName (env : List String) (n : String) : Except String Unit :=
  if env.contains n then Except.ok ()
  else Except.error ("NameError: name " ++ n ++ " is not defined")

/-- The chart section of the dashboard tab (app.py lines 186 and 199):
evaluating px.bar is the first evaluation of the name px, after the KPI
metrics and brand_stats have been computed. -/
def renderCharts (env : List String) : Except String Unit :=
  match lookupName env ("px") with
  | Except.ok _ => Except.ok ()
  | Except.error e => Except.error e

/-- The results display of app.py lines 143-205 as a function of the stored
data: nothing is shown for a falsy result, for a missing dataset key, or for
an empty dataset; otherwise the statistics are presented and the chart
section is evaluated in the module environment. -/
def displayResults (data : Option ExtractionData) :
    Option (PresentedTable × Except String Unit) :=
  match data with
  | none => none
  | some d =>
    match d.dataset with
    | none => none
    | some ds =>
      if ds.isEmpty then none
      else some (present ds, renderCharts moduleBoundNames)

/-- The per-session stored state: st.session_state.results. -/
structure Session where
  results : Option ExtractionData
deriving Repr, DecidableEq

/-- One rerender of the display section: it reads st.session_state.results
and contains no assignment to the session state or to the stored record (the
frame of line 150 is a fresh copy and lines 156-157 rebind only df), so the
session leaves the step unchanged alongside the rendered output. -/
def displayStep (s : Session) : Session × Option (PresentedTable × Except String Unit) :=
  (s, displayResults s.results)

/-- A string of n copies of the letter a, used as bulk text in concrete
scenarios. -/
def longContent (n : Nat) : String :=
  String.mk (List.replicate n 'a')

/-- Entry with a reported price of zero. -/
def e0 : Entry := ⟨"A", PyVal.num 0⟩

/-- Entry with price 100. -/
def e100 : Entry := ⟨"A", PyVal.num 100⟩

/-- Entry with price 200. -/
def e200 : Entry := ⟨"B", PyVal.num 200⟩

/-- The dataset of the spec example: prices 0, 100 and 200. -/
def dsC1 : List Entry := [e0, e100, e200]

/-- Entry whose price field is the non-numeric string abc. -/
def eAbc : Entry := ⟨"C", PyVal.str "abc"⟩

/-- Dataset holding one unparseable price and one real price. -/
def dsC5 : List Entry := [eAbc, e100]

/-- A search item whose raw content is 200 characters long. -/
def itC2ok : SearchItem := ⟨"u", "t", some (longContent 200), none⟩

/-- The thread the 200-character item is stored as. -/
def tC2ok : Thread := ⟨"t", "u", longContent 200⟩

/-- A search item whose raw content is non-empty but short (100 characters)
while its content field holds an acceptable 200-character text. -/
def itC4 : SearchItem := ⟨"u", "t", some (longContent 100), some (longContent 200)⟩

/-- C1: the claim says the median/min/max and per-brand means are computed
only over strictly positive prices, with the zero-price row excluded from
the statistics yet counted in Data Points, so that for prices 0, 100, 200
the median would be 150 over 2 valid entries.  On the code the cleaned
frame keeps every row whose price is numeric, zero included: the median of
the example dataset is 100, not 150. -/
theorem C1_counterexample :
    (present dsC1).dataPoints = 3 ∧ (present dsC1).medianPrice = some 100 ∧
      ¬ (present dsC1).medianPrice = some 150 := by
  refine ⟨by decide, by decide, by decide⟩

/-- C1 (amended): the summary statistics and the per-brand means are
computed over every row whose price_monthly is numeric, including zero or
negative prices; only unparseable prices are excluded, and the Data Points
count equals the number of numeric rows.  For the example prices 0, 100,
200: Data Points 3, median 100, minimum 0, maximum 200, and the zero price
participates in the mean of brand A (50 rather than 100). -/
theorem C1_amended_stats_over_numeric_rows :
    (present dsC1).dataPoints = 3 ∧ (present dsC1).medianPrice = some 100 ∧
      (present dsC1).lowestPrice = some 0 ∧ (present dsC1).highestPrice = some 200 ∧
      brandMean dsC1 ("A") = 50 ∧ brandMean dsC1 ("B") = 200 := by
  refine ⟨by decide, by decide, by decide, by decide, ?_, ?_⟩
  · simp +decide [brandMean, validRows, toNumeric, dsC1, e0, e100, e200, listMean,
      List.filterMap_cons, List.filter_cons]
    norm_num
  · simp +decide [brandMean, validRows, toNumeric, dsC1, e0, e100, e200, listMean,
      List.filterMap_cons, List.filter_cons]

/-- C2: the claim places the minimum validity threshold for a retained
document in the range 300 to 500 characters.  No such threshold exists: the
item itC2ok is retained although its text has only 200 characters. -/
theorem C2_counterexample :
    ¬ ∃ τ : Nat, 300 ≤ τ ∧ τ ≤ 500 ∧
      ∀ it t, acceptItem it = some t → τ < t.content.length := by
  rintro ⟨τ, h300, _, hall⟩
  have h := hall itC2ok tC2ok (by decide)
  have hlen : tC2ok.content.length = 200 := by decide
  omega

/-- C2 (amended): every retained thread has non-empty text whose length is
strictly greater than 150 characters, the threshold the code actually
uses. -/
theorem C2_amended_threshold_150 (it : SearchItem) (t : Thread)
    (h : acceptItem it = some t) : t.content ≠ "" ∧ 150 < t.content.length := by
  unfold acceptItem at h
  split at h
  next c heq =>
    split at h
    next hl =>
      cases h
      refine ⟨fun he => ?_, hl⟩
      have hc : c = "" := he
      rw [hc] at hl
      exact absurd hl (by decide)
    next hl => cases h
  next => cases h

/-- Witness for the amended C2 theorem at the concrete 200-character item. -/
theorem C2_amended_threshold_150_witness :
    tC2ok.content ≠ "" ∧ 150 < tC2ok.content.length :=
  C2_amended_threshold_150 itC2ok tC2ok (by decide)

/-- C4: the claim says that when the first strategy (raw_content) returns
non-empty but too-short text, the next strategy (the content snippet) is
invoked before the document is discarded.  The item itC4 has a 100-character
raw_content and a 200-character content; the Python or-expression keeps the
non-empty raw_content, the length test fails, and the item is dropped
without the content snippet ever being used. -/
theorem C4_counterexample :
    itC4.raw_content = some (longContent 100) ∧ longContent 100 ≠ "" ∧
      (longContent 100).length ≤ 150 ∧ itC4.content = some (longContent 200) ∧
      150 < (longContent 200).length ∧ acceptItem itC4 = none := by
  refine ⟨rfl, by decide, by decide, rfl, by decide, by decide⟩

/-- C4 (amended): the content snippet is consulted only when raw_content is
missing or empty; for an item whose raw_content is a non-empty string the
outcome is the same whatever the content field holds, so a non-empty but
short raw_content leads to the item being dropped with no fallback. -/
theorem C4_amended_no_fallback_on_short (url title s : String)
    (c c' : Option String) (hs : s ≠ "") :
    acceptItem ⟨url, title, some s, c⟩ = acceptItem ⟨url, title, some s, c'⟩ := by
  simp [acceptItem, pyOrStr, hs]

/-- Witness for the amended C4 theorem: replacing the 200-character content
snippet by nothing does not change the outcome for itC4. -/
theorem C4_amended_no_fallback_on_short_witness :
    acceptItem itC4 = acceptItem ⟨"u", "t", some (longContent 100), none⟩ :=
  C4_amended_no_fallback_on_short ("u") ("t") (longContent 100)
    (some (longContent 200)) none (by decide)

/-- C5: the claim says an entry with an unparseable price is retained as a
row with sentinel price 0.  On the code, to_numeric turns the price into
NaN and dropna removes the row: the two-entry dataset dsC5 presents as a
single row holding the real price 100, and no row with price 0 exists. -/
theorem C5_counterexample :
    (present dsC5).dataPoints = 1 ∧ (present dsC5).rows = [(e100, 100)] ∧
      ¬ (present dsC5).dataPoints = 2 ∧
      ((present dsC5).rows.map Prod.snd).contains 0 = false := by
  refine ⟨by decide, by decide, by decide, by decide⟩

/-- C5 (amended): entries whose price field does not parse as a number are
dropped from the presented table entirely rather than kept with a sentinel
price of 0; the rows that survive are exactly those with a numeric price. -/
theorem C5_amended_unparseable_dropped :
    (∀ (ds : List Entry) (e : Entry) (q : ℚ),
        toNumeric e.price_monthly = none → (e, q) ∉ (present ds).rows) ∧
      (present dsC5).rows = [(e100, 100)] := by
  constructor
  · intro ds e q h hmem
    have hm : (e, q) ∈ validRows ds := hmem
    rw [validRows, List.mem_filterMap] at hm
    obtain ⟨a, _, ha⟩ := hm
    rw [Option.map_eq_some'] at ha
    obtain ⟨v, hv, hpair⟩ := ha
    have hae : a = e := congrArg Prod.fst hpair
    rw [hae, h] at hv
    cases hv
  · decide

/-- Witness for the amended C5 theorem: the entry with string price abc does
not appear in the presented rows of dsC5 under any price value. -/
theorem C5_amended_unparseable_dropped_witness :
    ((eAbc, (7 : ℚ)) ∉ (present dsC5).rows) ∧ (present dsC5).rows = [(e100, 100)] :=
  ⟨C5_amended_unparseable_dropped.1 dsC5 eAbc 7 (by decide),
    C5_amended_unparseable_dropped.2⟩

/-- Length of a string built from an explicit character list. -/
theorem length_mk (l : List Char) : (String.mk l).length = l.length := rfl

/-- Length of the bulk-text string. -/
theorem longContent_length (n : Nat) : (longContent n).length = n := by
  rw [longContent, length_mk, List.length_replicate]

/-- Length of a Python slice: the minimum of the bound and the string
length. -/
theorem pySlice_length (s : String) (n : Nat) :
    (pySlice s n).length = min n s.length := by
  rw [pySlice, length_mk, List.length_take]
  rfl

/-- Length of one corpus block: a 68-character frame plus the url, the
title, and the truncated content. -/
theorem threadBlock_length (t : Thread) :
    (threadBlock t).length =
      68 + t.url.length + t.title.length + min 8000 t.content.length := by
  simp only [threadBlock, String.length_append, pySlice_length]
  have hsep : separator.length = 40 := by decide
  rw [hsep]
  have h1 : ("SOURCE: " : String).length = 8 := rfl
  have h2 : ("\nTITLE: " : String).length = 8 := rfl
  have h3 : ("\nCONTENT:\n" : String).length = 10 := rfl
  have h4 : ("\n" : String).length = 1 := rfl
  rw [h1, h2, h3, h4]
  omega

/-- Length of the accumulated corpus text: the accumulator plus the sum of
the block lengths. -/
theorem combinedText_foldl_length (ts : List Thread) (acc : String) :
    (ts.foldl (fun a t => a ++ threadBlock t) acc).length =
      acc.length + (ts.map (fun t => (threadBlock t).length)).sum := by
  induction ts generalizing acc with
  | nil => simp
  | cons t ts ih =>
    simp only [List.foldl_cons, List.map_cons, List.sum_cons, ih,
      String.length_append]
    omega

/-- Length of the combined corpus text: the sum of the block lengths. -/
theorem combinedText_length (ts : List Thread) :
    (combinedText ts).length = (ts.map (fun t => (threadBlock t).length)).sum := by
  have h := combinedText_foldl_length ts ""
  simpa [combinedText] using h

/-- A thread whose content is 8000 characters long and whose url and title
are empty. -/
def tBig : Thread := ⟨"", "", longContent 8000⟩

/-- C3: the claim bounds the assembled corpus by a configured maximum of
about 40000 characters for every number and size of input documents.  No
total bound exists: five full-length threads already yield a combined text
of 40340 characters. -/
theorem C3_counterexample :
    tBig.content.length = 8000 ∧
      40000 < (combinedText (List.replicate 5 tBig)).length := by
  have hc : tBig.content.length = 8000 := longContent_length 8000
  refine ⟨hc, ?_⟩
  rw [combinedText_length, List.map_replicate, List.sum_replicate,
    threadBlock_length]
  have hu : tBig.url.length = 0 := rfl
  have ht : tBig.title.length = 0 := rfl
  rw [hc, hu, ht, smul_eq_mul, Nat.min_self]
  norm_num

/-- C3 (amended): only a per-document bound holds: each thread contributes
its content truncated to at most 8000 characters, inside a 68-character
frame together with its url and title; the total corpus length is not
bounded by any configured maximum. -/
theorem C3_amended_per_document_bound (t : Thread) :
    (pySlice t.content 8000).length ≤ 8000 ∧
      (threadBlock t).length ≤ 68 + t.url.length + t.title.length + 8000 := by
  constructor
  · rw [pySlice_length]; omega
  · rw [threadBlock_length]; omega

/-- Two well-formed search items with distinct urls and long raw content,
enough for the run to pass the two-thread gate. -/
def itW1 : SearchItem := ⟨"u1", "t1", some (longContent 200), none⟩

/-- Second well-formed search item. -/
def itW2 : SearchItem := ⟨"u2", "t2", some (longContent 300), none⟩

/-- A search oracle returning the two well-formed items for every query. -/
def searchW : String → List SearchItem := fun _ => [itW1, itW2]

/-- C6: when the model output, after the code fences are stripped, is not
valid JSON (the decode oracle returns none), the run returns no data at
all: the result is none, never a partial decoded record. -/
theorem C6_invalid_json_no_partial_result (topic : String)
    (search : String → List SearchItem) (generate : String → String)
    (parse : String → Option ExtractionData)
    (hfail : parse (cleanModelOutput (generate (promptText topic
      (combinedText (gatherThreads ((queries topic).map search)))))) = none) :
    (run_deep_analysis topic search generate parse).result = none := by
  dsimp only [run_deep_analysis]
  split
  · rfl
  · rw [hfail]

/-- Witness for C6: a run over the two-thread search oracle whose model
answers with text no decoder accepts returns none. -/
theorem C6_invalid_json_no_partial_result_witness :
    (run_deep_analysis ("Topic") searchW (fun _ => "not json")
      (fun _ => none)).result = none :=
  C6_invalid_json_no_partial_result ("Topic") searchW (fun _ => "not json")
    (fun _ => none) rfl

/-- An input that is a recognized document URL rather than a free topic. -/
def urlTopic : String := "https://www.reddit.com/r/Insurance/comments/abc123"

/-- C7: the claim says a list of recognized document URLs bypasses the
search backend entirely.  The code has no such mode: even for a direct
thread URL as input, three search-backend calls are performed. -/
theorem C7_counterexample :
    (run_deep_analysis urlTopic (fun _ => []) (fun _ => "")
        (fun _ => none)).searchCalls = 3 ∧
      ¬ (run_deep_analysis urlTopic (fun _ => []) (fun _ => "")
        (fun _ => none)).searchCalls = 0 := by
  refine ⟨rfl, ?_⟩
  intro h
  rw [show (run_deep_analysis urlTopic (fun _ => []) (fun _ => "")
    (fun _ => none)).searchCalls = 3 from rfl] at h
  cases h

/-- C7 (amended): there is no explicit-URL mode: every input, a URL list
included, is treated as a search topic, and exactly three search-backend
calls are issued on every run. -/
theorem C7_amended_search_always_called (topic : String)
    (search : String → List SearchItem) (generate : String → String)
    (parse : String → Option ExtractionData) :
    (run_deep_analysis topic search generate parse).searchCalls = 3 := by
  dsimp only [run_deep_analysis]
  split
  · rfl
  · split <;> rfl

/-- C8: a run in which the search queries yield zero usable threads ends
with the no-data outcome: no result is returned, the model is never
invoked, and the search is not retried beyond the three fixed queries. -/
theorem C8_no_candidates_terminal (topic : String)
    (search : String → List SearchItem) (generate : String → String)
    (parse : String → Option ExtractionData)
    (hempty : gatherThreads ((queries topic).map search) = []) :
    (run_deep_analysis topic search generate parse).result = none ∧
      (run_deep_analysis topic search generate parse).modelCalled = false ∧
      (run_deep_analysis topic search generate parse).searchCalls = 3 := by
  dsimp only [run_deep_analysis]
  rw [hempty]
  exact ⟨rfl, rfl, rfl⟩

/-- Witness for C8: a run whose search oracle returns nothing ends with no
result, no model call, and three search calls. -/
theorem C8_no_candidates_terminal_witness :
    (run_deep_analysis ("Test Topic") (fun _ => []) (fun _ => "")
        (fun _ => none)).result = none ∧
      (run_deep_analysis ("Test Topic") (fun _ => []) (fun _ => "")
        (fun _ => none)).modelCalled = false ∧
      (run_deep_analysis ("Test Topic") (fun _ => []) (fun _ => "")
        (fun _ => none)).searchCalls = 3 :=
  C8_no_candidates_terminal ("Test Topic") (fun _ => []) (fun _ => "")
    (fun _ => none) rfl

/-- C9: for a stored result whose dataset holds an entry with a parseable
positive price, the dashboard is rendered: the KPI statistics are computed,
and the chart section then fails with an unbound-name error, because px is
bound nowhere in the module. -/
theorem C9_px_unbound_chart_error (d : ExtractionData) (ds : List Entry)
    (e : Entry) (q : ℚ) (hds : d.dataset = some ds) (he : e ∈ ds)
    (hq : toNumeric e.price_monthly = some q) (hpos : 0 < q) :
    ("px" ∈ moduleBoundNames → False) ∧
      displayResults (some d) =
        some (present ds, Except.error ("NameError: name px is not defined")) := by
  have hne : ds.isEmpty = false := by
    cases ds with
    | nil => cases he
    | cons a l => rfl
  have hch : renderCharts moduleBoundNames =
      Except.error ("NameError: name px is not defined") := rfl
  refine ⟨by decide, ?_⟩
  rw [displayResults, hds]
  simp only [hne, Bool.false_eq_true, if_false, hch]

/-- The stored record of the C9 witness: a dataset with one entry of price
100 and a market summary. -/
def dW : ExtractionData := ⟨some [e100], some ("High prices"), none, none⟩

/-- Witness for C9 at the concrete one-row record dW. -/
theorem C9_px_unbound_chart_error_witness :
    ("px" ∈ moduleBoundNames → False) ∧
      displayResults (some dW) =
        some (present [e100], Except.error ("NameError: name px is not defined")) :=
  C9_px_unbound_chart_error dW [e100] e100 100 rfl (by decide) rfl (by decide)

/-- C10: the results display is a pure projection of the stored
ExtractionResult: one rerender leaves the session record unchanged, and a
second rerender over that state produces the identical presented table,
statistics and chart outcome. -/
theorem C10_presentation_pure (s : Session) :
    (displayStep s).1 = s ∧
      (displayStep ((displayStep s).1)).2 = (displayStep s).2 :=
  ⟨rfl, rfl⟩

end RedditInsight
